import Mathlib

/-!
# Verification of the ARTEX voice-agent dialogue orchestration engine

Shallow embedding of the orchestration code of the `artex-ai-voice` repository:

* the tool dispatcher `AgentService._execute_function_call`, in its two copies
  (`src/src/agent_service.py` and `src/artex_agent/src/agent_service.py`);
* the turn processor `AgentService.get_reply`, in its two copies;
* the LLM gateway retry loop `GeminiClient.generate_text_response`
  (`src/src/gemini_client.py`);
* the in-band directive check of the CLI loop (`src/src/agent.py`);
* the idle-timeout watchdog `_monitor_user_silence`
  (`src/src/livekit_participant_handler.py`).

External collaborators (SQLAlchemy repositories, the Gemini API, the clock)
appear as explicit parameters: a `Backend` record of fallible operations, a
`Gateway` function from the prompt history to a response, and `Nat` timestamps.
A Python exception is modelled as `Except.error` carrying the exception text.
-/

set_option autoImplicit false

namespace ArtexAgent

/-! ## Payloads, arguments and Python truthiness -/

/-- A JSON-ish value as stored in tool-call payload dictionaries. -/
inductive JValue where
  | str (s : String)
  | nat (n : Nat)
  | null
  deriving DecidableEq, Repr

/-- A Python dict used as a function-response payload (insertion order kept). -/
abbrev Payload := List (String × JValue)

/-- `key in dict` on a payload. -/
def Payload.hasKey (p : Payload) (k : String) : Bool :=
  p.any (fun kv => kv.fst == k)

/-- Tool-call arguments: a string-keyed map of string values, as delivered by
the Gemini function-call part (`dict(tool_call.args)`). -/
abbrev Args := List (String × String)

/-- `tool_args.get(key)`: `none` when the key is absent. -/
def Args.get (a : Args) (k : String) : Option String :=
  (a.find? (fun kv => kv.fst == k)).map (·.snd)

/-- Python truthiness of `tool_args.get(...)`: `None` and `""` are falsy. -/
def truthy : Option String → Bool
  | none => false
  | some s => !s.isEmpty

/-! ## Database rows (from `database_models.py` / `database_repositories.py`) -/

/-- The columns of `Contrat` used by the dispatcher. -/
structure Contrat where
  id_contrat : Nat
  numero_contrat : String
  id_adherent_principal : Option Nat
  deriving DecidableEq, Repr

/-- The `sinistre_data` dict assembled by the `open_claim` branch. -/
structure SinistreData where
  id_contrat : Nat
  id_adherent : Nat
  type_sinistre : String
  description_sinistre : String
  claim_id_ref : String
  date_survenance : Option String
  deriving DecidableEq, Repr

/-- A persisted `SinistreArtex` row (`create_sinistre_artex` assigns the key). -/
structure SinistreArtex where
  id_sinistre_artex : Nat
  data : SinistreData
  deriving DecidableEq, Repr

/-- The persistent state touched by the two tools. -/
structure DB where
  contrats : List Contrat
  sinistres : List SinistreArtex
  deriving DecidableEq, Repr

/-! ## The Tool Backend interface

`_execute_function_call` calls three repository operations.  Each is modelled
as a function that may raise (`Except.error` carries the exception text).
Reads do not change the database; `create_sinistre_artex` returns the new row
and the new database state (made durable by the `session.commit()` that
immediately follows it in the source). -/

structure Backend where
  getContratDetailsForFunctionCall : String → DB → Except String (Option Payload)
  getContratByNumeroContrat : String → DB → Except String (Option Contrat)
  createSinistreArtex : SinistreData → DB → Except String (SinistreArtex × DB)

/-- Ambient pieces of the dispatcher's environment: the backend, the standard
library's `datetime.date.fromisoformat` (returning `none` on `ValueError`),
the `uuid.uuid4().hex[:8].upper()` fragment used for the claim reference, and
whether `AsyncSessionFactory` is configured (checked by the artex_agent copy). -/
structure Env where
  backend : Backend
  parseIsoDate : String → Option String
  uuidHex8 : String
  sessionFactoryAvailable : Bool

/-- The generic error payload produced by the `except` branch of the src copy:
`{"error": "Erreur interne lors de l'appel d'outil."}`. -/
def genericToolError : Payload :=
  [("error", .str "Erreur interne lors de l'appel d'outil.")]

/-- The generic error payload of the artex_agent copy's `except` branch. -/
def genericToolErrorArtex (toolName : String) : Payload :=
  [("error", .str ("Erreur interne lors de l'exécution de l'outil '" ++ toolName ++ "'."))]

/-! ## Tool dispatcher, src copy

Embedding of `AgentService._execute_function_call`
(`src/src/agent_service.py`, lines 43–113).  The whole branch body runs inside
`try: ... except Exception: session.rollback(); response = generic`, modelled
by running the body in `Except` and mapping any `.error` to the generic payload
with the original (rolled-back) database state.

Note the source initialises `response = {"error": f"Tool '{tool_name}'
execution failed."}` and later guards the claim insertion with
`if "error" not in response:`; since the initial `response` already has the
`"error"` key, that guard can never pass.  The embedding reproduces this
verbatim. -/

def executeFunctionCall (env : Env) (toolName : String) (toolArgs : Args)
    (db : DB) : Payload × DB :=
  let response0 : Payload :=
    [("error", .str ("Tool '" ++ toolName ++ "' execution failed."))]
  let body : Except String (Payload × DB) :=
    if toolName == "get_contrat_details" then
      let numero := toolArgs.get "numero_contrat"
      if truthy numero then
        match env.backend.getContratDetailsForFunctionCall (numero.getD "") db with
        | .error e => .error e
        | .ok (some data) => .ok (data, db)
        | .ok none =>
            .ok ([("error", .str ("Contrat " ++ numero.getD "" ++ " non trouvé."))], db)
      else
        .ok ([("error", .str "numero_contrat manquant.")], db)
    else if toolName == "open_claim" then
      let numero := toolArgs.get "numero_contrat"
      let typeS := toolArgs.get "type_sinistre"
      let desc := toolArgs.get "description_sinistre"
      let dateStr := toolArgs.get "date_survenance"
      if truthy numero && truthy typeS && truthy desc then
        match env.backend.getContratByNumeroContrat (numero.getD "") db with
        | .error e => .error e
        | .ok contrat =>
          match contrat with
          | some c =>
            -- `if contrat and contrat.id_adherent_principal:` (0 is falsy too)
            match c.id_adherent_principal with
            | some aid =>
              if aid != 0 then
                let sinistre0 : SinistreData :=
                  { id_contrat := c.id_contrat
                    id_adherent := aid
                    type_sinistre := typeS.getD ""
                    description_sinistre := desc.getD ""
                    claim_id_ref := "CLAIM-" ++ env.uuidHex8
                    date_survenance := none }
                let sr : SinistreData × Payload :=
                  if truthy dateStr then
                    match env.parseIsoDate (dateStr.getD "") with
                    | some d => ({ sinistre0 with date_survenance := some d }, response0)
                    | none =>
                        (sinistre0,
                         [("error", .str ("Date invalide: " ++ dateStr.getD ""
                             ++ ". Use YYYY-MM-DD."))])
                  else (sinistre0, response0)
                -- `if "error" not in response:` — dead guard, see above
                if sr.2.hasKey "error" then .ok (sr.2, db)
                else
                  match env.backend.createSinistreArtex sr.1 db with
                  | .error e => .error e
                  | .ok (newS, db2) =>
                      .ok ([("id_sinistre_artex", .nat newS.id_sinistre_artex),
                            ("claim_id_ref", .str newS.data.claim_id_ref),
                            ("message", .str "Sinistre enregistré.")], db2)
              else .ok ([("error", .str ("Contrat " ++ numero.getD "" ++ " non trouvé."))], db)
            | none => .ok ([("error", .str ("Contrat " ++ numero.getD "" ++ " non trouvé."))], db)
          | none => .ok ([("error", .str ("Contrat " ++ numero.getD "" ++ " non trouvé."))], db)
      else
        .ok ([("error", .str "Paramètres pour sinistre manquants.")], db)
    else
      -- unknown tool: no branch runs, the initial response is returned
      .ok (response0, db)
  match body with
  | .ok r => r
  | .error _ => (genericToolError, db)

/-! ## Tool dispatcher, artex_agent copy

Embedding of `AgentService._execute_function_call`
(`src/artex_agent/src/agent_service.py`, lines 35–104).  Same shape; different
message texts, an early `AsyncSessionFactory` availability check, and
`is not None` (rather than truthiness) on `id_adherent_principal`.  The
`if "error" not in function_response_content:` guard is dead here as well. -/

def executeFunctionCallArtex (env : Env) (toolName : String) (toolArgs : Args)
    (db : DB) : Payload × DB :=
  let response0 : Payload :=
    [("error", .str ("Tool '" ++ toolName
        ++ "' execution failed or not implemented in AgentService."))]
  if !env.sessionFactoryAvailable then
    ([("error", .str "Database session factory not configured.")], db)
  else
    let body : Except String (Payload × DB) :=
      if toolName == "get_contrat_details" then
        let numero := toolArgs.get "numero_contrat"
        if truthy numero then
          match env.backend.getContratDetailsForFunctionCall (numero.getD "") db with
          | .error e => .error e
          | .ok (some data) => .ok (data, db)
          | .ok none =>
              .ok ([("error", .str ("Contrat non trouvé pour le numéro : "
                  ++ numero.getD "" ++ "."))], db)
        else
          .ok ([("error", .str "Numéro de contrat manquant pour get_contrat_details.")], db)
      else if toolName == "open_claim" then
        let numero := toolArgs.get "numero_contrat"
        let typeS := toolArgs.get "type_sinistre"
        let desc := toolArgs.get "description_sinistre"
        let dateStr := toolArgs.get "date_survenance"
        if truthy numero && truthy typeS && truthy desc then
          match env.backend.getContratByNumeroContrat (numero.getD "") db with
          | .error e => .error e
          | .ok contrat =>
            match contrat with
            | some c =>
              -- `if contrat and contrat.id_adherent_principal is not None
              --  and contrat.id_contrat is not None:`
              match c.id_adherent_principal with
              | some aid =>
                let sinistre0 : SinistreData :=
                  { id_contrat := c.id_contrat
                    id_adherent := aid
                    type_sinistre := typeS.getD ""
                    description_sinistre := desc.getD ""
                    claim_id_ref := "CLAIM-" ++ env.uuidHex8
                    date_survenance := none }
                let sr : SinistreData × Payload :=
                  if truthy dateStr then
                    match env.parseIsoDate (dateStr.getD "") with
                    | some d => ({ sinistre0 with date_survenance := some d }, response0)
                    | none =>
                        (sinistre0,
                         [("error", .str ("Format de date_survenance invalide : '"
                             ++ dateStr.getD "" ++ "'. Utilisez YYYY-MM-DD."))])
                  else (sinistre0, response0)
                -- `if "error" not in function_response_content:` — dead guard
                if sr.2.hasKey "error" then .ok (sr.2, db)
                else
                  match env.backend.createSinistreArtex sr.1 db with
                  | .error e => .error e
                  | .ok (newS, db2) =>
                      .ok ([("id_sinistre_artex", .nat newS.id_sinistre_artex),
                            ("claim_id_ref", .str newS.data.claim_id_ref),
                            ("message", .str "Déclaration de sinistre enregistrée avec succès.")],
                           db2)
              | none =>
                  .ok ([("error", .str ("Contrat non trouvé pour le numéro : "
                      ++ numero.getD ""
                      ++ " ou informations d'adhérent/contrat manquantes."))], db)
            | none =>
                .ok ([("error", .str ("Contrat non trouvé pour le numéro : "
                    ++ numero.getD ""
                    ++ " ou informations d'adhérent/contrat manquantes."))], db)
        else
          .ok ([("error", .str ("Informations manquantes (numéro de contrat, type, "
              ++ "description) pour ouvrir le sinistre."))], db)
      else
        .ok (response0, db)
    match body with
    | .ok r => r
    | .error _ => (genericToolErrorArtex toolName, db)

/-! ## Concrete backends -/

/-- The concrete repository backend over the in-memory `DB`: lookups by
contract number, insertion with a fresh surrogate key (`database_repositories.py`,
`ContratRepository` / `SinistreArtexRepository`).  The details payload
abstracts the row serialisation of `get_contrat_details_for_function_call`. -/
def realBackend : Backend where
  getContratDetailsForFunctionCall := fun n db =>
    .ok ((db.contrats.find? (fun c => c.numero_contrat == n)).map
      (fun c => [("numero_contrat", .str c.numero_contrat)]))
  getContratByNumeroContrat := fun n db =>
    .ok (db.contrats.find? (fun c => c.numero_contrat == n))
  createSinistreArtex := fun sd db =>
    let s : SinistreArtex := { id_sinistre_artex := db.sinistres.length + 1, data := sd }
    .ok (s, { db with sinistres := db.sinistres ++ [s] })

/-- A backend whose every operation raises with message `m`. -/
def throwingBackend (m : String) : Backend where
  getContratDetailsForFunctionCall := fun _ _ => .error m
  getContratByNumeroContrat := fun _ _ => .error m
  createSinistreArtex := fun _ _ => .error m

/-- Environment with the concrete backend. -/
def realEnv : Env :=
  { backend := realBackend
    parseIsoDate := fun _ => none
    uuidHex8 := "AB12CD34"
    sessionFactoryAvailable := true }

/-- Environment whose backend always raises `m`. -/
def envThrow (m : String) : Env :=
  { backend := throwingBackend m
    parseIsoDate := fun _ => none
    uuidHex8 := "AB12CD34"
    sessionFactoryAvailable := true }

/-- A database holding contract NC123 with primary policyholder 7 and no claims. -/
def dbNC123 : DB :=
  { contrats := [{ id_contrat := 1, numero_contrat := "NC123",
                   id_adherent_principal := some 7 }]
    sinistres := [] }

/-- Valid `open_claim` arguments for NC123 (no incident date supplied). -/
def openClaimArgs : Args :=
  [("numero_contrat", "NC123"),
   ("type_sinistre", "degat des eaux"),
   ("description_sinistre", "fuite importante dans la cuisine")]

/-! ## Conversation turns and Gemini responses -/

/-- One part of a Gemini content object: text, a function call, or a function
response (`Part.from_function_response` / `Part(function_response=...)`). -/
inductive Part where
  | text (s : String)
  | functionCall (name : String) (args : Args)
  | functionResponse (name : String) (response : Payload)
  deriving DecidableEq, Repr

/-- One raw history entry: `{"role": ..., "parts": [...]}`. -/
structure Turn where
  role : String
  parts : List Part
  deriving DecidableEq, Repr

/-- One response candidate; `content` is `None` or carries a parts list. -/
structure Candidate where
  content : Option (List Part)
  deriving DecidableEq, Repr

/-- A `GenerateContentResponse` as consumed by `get_reply`. -/
structure GemResponse where
  candidates : List Candidate
  deriving DecidableEq, Repr

/-- The LLM Gateway: given the prompt history, returns a response or raises
(`generate_text_response` re-raises after exhausting its retries). -/
abbrev Gateway := List Turn → Except String GemResponse

def Part.isFunctionCall : Part → Bool
  | .functionCall .. => true
  | _ => false

/-- The first `function_call` part of a parts list, if any
(the `for chunk in candidate.content.parts: ... break` scan). -/
def firstFunctionCall (ps : List Part) : Option (String × Args) :=
  ps.findSome? fun p =>
    match p with
    | .functionCall n a => some (n, a)
    | _ => none

/-- The text of a part, `""` for non-text parts (falsy `chunk.text`). -/
def Part.textOrEmpty : Part → String
  | .text s => s
  | _ => ""

/-- Concatenation of all non-empty text chunks of a parts list. -/
def joinTexts (ps : List Part) : String :=
  ps.foldl (fun acc p => acc ++ p.textOrEmpty) ""

def userTurn (msg : String) : Turn := { role := "user", parts := [.text msg] }

def modelTextTurn (t : String) : Turn := { role := "model", parts := [.text t] }

def modelFunctionCallTurn (name : String) (args : Args) : Turn :=
  { role := "model", parts := [.functionCall name args] }

def functionResponseTurn (name : String) (resp : Payload) : Turn :=
  { role := "function", parts := [.functionResponse name resp] }

/-- `MAX_HISTORY_TURNS_API = 10` (both copies of `agent_service.py`). -/
def MAX_HISTORY_TURNS_API : Nat := 10

/-- Trimming of the src copy (lines 192–194):
`history[-MAX_HISTORY_TURNS_API*4:]` once the raw length exceeds
`MAX_HISTORY_TURNS_API * 4`. -/
def trimSrc (h : List Turn) : List Turn :=
  if MAX_HISTORY_TURNS_API * 4 < h.length
  then h.drop (h.length - MAX_HISTORY_TURNS_API * 4) else h

/-- The first function call of the first candidate, as scanned by `get_reply`:
`candidate = (gem_resp.candidates or [None])[0]`, `if candidate and
candidate.content: for chunk in ...`. -/
def responseToolCall (resp : GemResponse) : Option (String × Args) :=
  match resp.candidates.head? with
  | some c =>
    match c.content with
    | some parts => firstFunctionCall parts
    | none => none
  | none => none

/-- The concatenated text of the first candidate (empty when there is no
candidate or no content). -/
def responseText (resp : GemResponse) : String :=
  match resp.candidates.head? with
  | some c =>
    match c.content with
    | some parts => joinTexts parts
    | none => ""
  | none => ""

/-! ## Turn processor, src copy -/

/-- What one `get_reply` call leaves behind.  `answer` is `.error e` when the
Python call raises (the exception propagates to the caller); `pretrim` is the
in-place-mutated history after all appends, before trimming; `stored` is the
history recorded for the conversation when the call ends (by return or by
exception — Python mutates the shared list in place). -/
structure ReplyResult where
  answer : Except String String
  pretrim : List Turn
  stored : List Turn
  gatewayCalls : Nat
  db : DB
  deriving Repr

/-- Embedding of `AgentService.get_reply` from `src/src/agent_service.py`
(lines 115–197), acting on one conversation's stored history.

This copy has no `try/except` around the gateway calls, so a gateway exception
propagates (`answer := .error e`).  On the tool-call path the source evaluates
`Part.from_function_response(...)` (line 164) — but `Part` is never imported
in this module, so that line raises `NameError` after the tool has executed
and before the function-role turn is appended or the second gateway call is
made.  Trimming (`history[-MAX_HISTORY_TURNS_API*4:]`, line 193–194) runs only
when the call completes normally. -/
def getReplySrc (gw : Gateway) (env : Env) (db : DB) (hist : List Turn)
    (userMessage : String) : ReplyResult :=
  let h1 := hist ++ [userTurn userMessage]
  match gw h1 with
  | .error e =>
      { answer := .error e, pretrim := h1, stored := h1, gatewayCalls := 1, db := db }
  | .ok resp =>
    match responseToolCall resp with
    | some (name, fcArgs) =>
      let h2 := h1 ++ [modelFunctionCallTurn name fcArgs]
      let r := executeFunctionCall env name fcArgs db
      -- `function_response_part = Part.from_function_response(...)`:
      -- `Part` is not defined in this module — NameError.
      { answer := .error "NameError: name 'Part' is not defined"
        pretrim := h2, stored := h2, gatewayCalls := 1, db := r.2 }
    | none =>
      let text0 := responseText resp
      let text := if text0 == "" then "[Pas de réponse disponible.]" else text0
      let h3 := h1 ++ [modelTextTurn text]
      { answer := .ok text, pretrim := h3, stored := trimSrc h3, gatewayCalls := 1, db := db }

/-! ## Turn processor, artex_agent copy -/

/-- The preset answer of the artex_agent copy
(`final_agent_text_response` default, line 122). -/
def defaultErrorText : String :=
  "Je suis désolé, une erreur technique est survenue lors de la génération de ma réponse."

/-- The `except` branch of the artex_agent `get_reply` (lines 192–196):
append a model turn holding the preset text unless the history already ends
with a model turn. -/
def appendModelIfNeeded (h : List Turn) : List Turn :=
  match h.getLast? with
  | some t => if t.role == "model" then h else h ++ [modelTextTurn defaultErrorText]
  | none => h ++ [modelTextTurn defaultErrorText]

/-- Trimming of the artex_agent copy (lines 199–205): keep the most recent
`MAX_HISTORY_TURNS_API * 2` raw turns. -/
def trimArtex (h : List Turn) : List Turn :=
  if MAX_HISTORY_TURNS_API * 2 < h.length
  then h.drop (h.length - MAX_HISTORY_TURNS_API * 2) else h

/-- Does the first candidate have a non-empty parts list?
(`if candidate and candidate.content and candidate.content.parts:`). -/
def hasParts (resp : GemResponse) : Bool :=
  match resp.candidates.head? with
  | some c =>
    match c.content with
    | some parts => !parts.isEmpty
    | none => false
  | none => false

/-- Final text of the artex_agent copy after the tool round trip, from the
resumed response (lines 164–179). -/
def artexTextAfterTool (resp : GemResponse) : String :=
  if hasParts resp then
    let t := responseText resp
    if t == "" then
      match responseToolCall resp with
      | some (n2, _) =>
          "[AGENT_ACTION: Outil '" ++ n2 ++ "' suggéré, traitement en attente.]"
      | none => "[Réponse de l'agent non disponible après l'outil.]"
    else t
  else "[Erreur de communication avec l'IA après l'outil.]"

/-- Embedding of `AgentService.get_reply` from
`src/artex_agent/src/agent_service.py` (lines 106–208), acting on one
conversation's stored history.  The whole interaction is wrapped in
`try/except`, so this copy never raises: `answer` is always `.ok`. -/
def getReplyArtex (gw : Gateway) (env : Env) (db : DB) (hist : List Turn)
    (userMessage : String) : ReplyResult :=
  let h1 := hist ++ [userTurn userMessage]
  match gw h1 with
  | .error _ =>
    -- outer `except`: the preset default text, no exception detail
    let h2 := appendModelIfNeeded h1
    { answer := .ok defaultErrorText, pretrim := h2, stored := trimArtex h2,
      gatewayCalls := 1, db := db }
  | .ok resp =>
    if hasParts resp then
      match responseToolCall resp with
      | some (name, fcArgs) =>
        let h2 := h1 ++ [modelFunctionCallTurn name fcArgs]
        let r := executeFunctionCallArtex env name fcArgs db
        let h3 := h2 ++ [functionResponseTurn name r.1]
        match gw h3 with
        | .error _ =>
          let h4 := appendModelIfNeeded h3
          { answer := .ok defaultErrorText, pretrim := h4, stored := trimArtex h4,
            gatewayCalls := 2, db := r.2 }
        | .ok resp2 =>
          let text := artexTextAfterTool resp2
          let h4 := h3 ++ [modelTextTurn text]
          { answer := .ok text, pretrim := h4, stored := trimArtex h4,
            gatewayCalls := 2, db := r.2 }
      | none =>
        let t0 := responseText resp
        let text := if t0 == "" then "[L'agent n'a pas fourni de réponse textuelle.]" else t0
        let h2 := h1 ++ [modelTextTurn text]
        { answer := .ok text, pretrim := h2, stored := trimArtex h2,
          gatewayCalls := 1, db := db }
    else
      let text := "[Erreur de communication avec l'IA.]"
      let h2 := h1 ++ [modelTextTurn text]
      { answer := .ok text, pretrim := h2, stored := trimArtex h2,
        gatewayCalls := 1, db := db }

/-! ## Drivers: repeated turns on one conversation -/

/-- `n` consecutive `get_reply` calls (src copy) on one conversation,
threading the stored history and the database. -/
def runSrcRounds (gw : Gateway) (env : Env) (db0 : DB) (msg : String) :
    Nat → List Turn × DB
  | 0 => ([], db0)
  | n + 1 =>
    let p := runSrcRounds gw env db0 msg n
    let r := getReplySrc gw env p.2 p.1 msg
    (r.stored, r.db)

/-- `n` consecutive `get_reply` calls (artex_agent copy) on one conversation. -/
def runArtexRounds (gw : Gateway) (env : Env) (db0 : DB) (msg : String) :
    Nat → List Turn × DB
  | 0 => ([], db0)
  | n + 1 =>
    let p := runArtexRounds gw env db0 msg n
    let r := getReplyArtex gw env p.2 p.1 msg
    (r.stored, r.db)

/-! ## Gateway stubs -/

/-- A response whose single candidate carries one text part. -/
def textResponse (s : String) : GemResponse :=
  { candidates := [{ content := some [.text s] }] }

/-- A response whose single candidate carries one function-call part. -/
def fcResponse (name : String) (args : Args) : GemResponse :=
  { candidates := [{ content := some [.functionCall name args] }] }

/-- A gateway that returns a tool call on every invocation. -/
def gwAlwaysFc : Gateway :=
  fun _ => .ok (fcResponse "get_contrat_details" [("numero_contrat", "NC123")])

/-- A gateway that always returns plain text. -/
def gwText : Gateway := fun _ => .ok (textResponse "Bonjour, comment puis-je aider?")

/-- A gateway that raises on every invocation (the terminal error
`generate_text_response` raises after exhausting its retries). -/
def gwRaise (e : String) : Gateway := fun _ => .error e

/-- A scripted gateway: a tool call on the very first call of a fresh
conversation (prompt history of length 1), plain text afterwards. -/
def gwFirstCallFc : Gateway :=
  fun h =>
    if h.length == 1
    then .ok (fcResponse "get_contrat_details" [("numero_contrat", "NC123")])
    else .ok (textResponse "Voici votre réponse.")

/-! ## Tool request/result pairing predicates -/

/-- A `tool_request` turn: a model turn carrying a function-call part. -/
def Turn.isToolRequest (t : Turn) : Bool :=
  t.role == "model" && t.parts.any Part.isFunctionCall

/-- A `tool_result` turn: a function-role turn. -/
def Turn.isToolResult (t : Turn) : Bool :=
  t.role == "function"

/-- Helper for `hasOrphanResult`: scan with the previous turn at hand. -/
def orphanResultAux : Turn → List Turn → Bool
  | _, [] => false
  | prev, t :: rest =>
    (t.isToolResult && !prev.isToolRequest) || orphanResultAux t rest

/-- `true` iff some tool_result turn is not immediately preceded by a
tool_request turn — i.e. the history retains a function-response whose
matching function-call turn is gone. -/
def hasOrphanResult : List Turn → Bool
  | [] => false
  | t :: rest => t.isToolResult || orphanResultAux t rest

/-- `true` iff every tool_request turn is immediately followed by a
tool_result turn (no dangling function-call turn). -/
def noOrphanRequest : List Turn → Bool
  | [] => true
  | [t] => !t.isToolRequest
  | t :: u :: rest => (!t.isToolRequest || u.isToolResult) && noOrphanRequest (u :: rest)

/-! ## LLM gateway retry loop (`src/src/gemini_client.py`) -/

def MAX_RETRIES : Nat := 3
def INITIAL_BACKOFF_SECONDS : Nat := 1
def MAX_BACKOFF_SECONDS : Nat := 16

/-- Per-attempt behaviour of `model.generate_content_async`: attempt `k`
(0-based) either returns a response or raises. -/
abbrev ApiBehavior := Nat → Except String GemResponse

/-- Outcome of `generate_text_response`: the returned response or the raised
terminal exception, the `asyncio.sleep` durations performed between attempts,
and the number of attempts made. -/
structure GenResult where
  response : Except String GemResponse
  sleeps : List Nat
  attempts : Nat
  deriving Repr

/-- The `while current_retry < MAX_RETRIES` loop (lines 89–105), recursing on
the remaining iteration budget `MAX_RETRIES - current_retry`.  On failure the
source sleeps `backoff_time`, increments the counter, and updates
`backoff_time = min(MAX_BACKOFF_SECONDS, backoff_time * 2)`; after the loop it
raises the terminal exception. -/
def generateLoop (api : ApiBehavior) :
    Nat → Nat → Nat → List Nat → GenResult
  | 0, currentRetry, _, sleeps =>
    { response := .error "Failed to get response from Gemini after 3 retries."
      sleeps := sleeps.reverse, attempts := currentRetry }
  | remaining + 1, currentRetry, backoff, sleeps =>
    match api currentRetry with
    | .ok r => { response := .ok r, sleeps := sleeps.reverse, attempts := currentRetry + 1 }
    | .error _ =>
      generateLoop api remaining (currentRetry + 1)
        (min MAX_BACKOFF_SECONDS (backoff * 2)) (backoff :: sleeps)

/-- Embedding of `GeminiClient.generate_text_response`'s retry behaviour. -/
def generateTextResponse (api : ApiBehavior) : GenResult :=
  generateLoop api MAX_RETRIES 0 INITIAL_BACKOFF_SECONDS []

/-! ## Directive check of the CLI loop (`src/src/agent.py`, lines 364–375) -/

/-- The typed directive extracted from the final model text. -/
inductive Directive where
  | answer (text : String)
  | clarifyRequest (question : String)
  | handoff (message : String)
  deriving DecidableEq, Repr

def HANDOFF_MARKER : String := "[HANDOFF]"
def CLARIFY_MARKER : String := "[CLARIFY]"

/-- Fallback when the hand-off remainder is empty:
`... or "Je vous mets en relation avec un conseiller."`. -/
def DEFAULT_HANDOFF_MESSAGE : String := "Je vous mets en relation avec un conseiller."

/-- Python `str.startswith(prefix)`: literal prefix test over the character
sequence. -/
def pyStartsWith (s pre : String) : Bool :=
  pre.data.isPrefixOf s.data

/-- Helper for `pyRemoveAll`: one left-to-right scan over the character list,
removing every occurrence of `pat`.  The extra `Nat` is an iteration budget
(initialised to the list length, which always suffices since every step
consumes at least one character) so that the recursion is structural. -/
def removeAllChars (pat : List Char) : Nat → List Char → List Char
  | _, [] => []
  | 0, l => l
  | fuel + 1, c :: rest =>
    if pat.isPrefixOf (c :: rest) && !pat.isEmpty
    then removeAllChars pat fuel (rest.drop (pat.length - 1))
    else c :: removeAllChars pat fuel rest

/-- Python `str.replace(old, "")`: removes every occurrence of `old`, as the
CLI loop uses it (`agent_response_text.replace("[HANDOFF]", "")`). -/
def pyRemoveAll (s pat : String) : String :=
  ⟨removeAllChars pat.data s.data.length s.data⟩

/-- The whitespace characters stripped by Python `str.strip()`. -/
def isPySpace (c : Char) : Bool :=
  c == ' ' || c == '\t' || c == '\n' || c == '\r' || c == '\x0b' || c == '\x0c'

/-- Python `str.strip()`: remove leading and trailing whitespace. -/
def pyStrip (s : String) : String :=
  ⟨((s.data.dropWhile isPySpace).reverse.dropWhile isPySpace).reverse⟩

/-- Python slicing `s[n:]` over the character sequence. -/
def pyDrop (s : String) (n : Nat) : String :=
  ⟨s.data.drop n⟩

/-- Embedding of the CLI loop's directive check:
`if agent_response_text.startswith("[HANDOFF]")` /
`elif agent_response_text.startswith("[CLARIFY]")` / else plain answer.
`startswith` inspects the raw reply (no prior strip); the message is
`text.replace(marker, "").strip()` — `str.replace` removes every occurrence
of the marker, not only the leading one. -/
def extractDirective (t : String) : Directive :=
  if pyStartsWith t HANDOFF_MARKER then
    let m := pyStrip (pyRemoveAll t HANDOFF_MARKER)
    .handoff (if m == "" then DEFAULT_HANDOFF_MESSAGE else m)
  else if pyStartsWith t CLARIFY_MARKER then
    .clarifyRequest (pyStrip (pyRemoveAll t CLARIFY_MARKER))
  else .answer t

/-- Modelled from the spec: the claimed directive extraction, in which the
markers "match only as a literal prefix of the trimmed text" and the Handoff
message is the remainder after the marker (or the default when empty).  Used
only to compare the claim's wording with `extractDirective`. -/
def extractDirectiveClaimed (t0 : String) : Directive :=
  let t := pyStrip t0
  if pyStartsWith t HANDOFF_MARKER then
    let m := pyStrip (pyDrop t HANDOFF_MARKER.data.length)
    .handoff (if m == "" then DEFAULT_HANDOFF_MESSAGE else m)
  else if pyStartsWith t CLARIFY_MARKER then
    .clarifyRequest (pyStrip (pyDrop t CLARIFY_MARKER.data.length))
  else .answer t0

/-! ## Idle-timeout watchdog (`src/src/livekit_participant_handler.py`) -/

def USER_SILENCE_HANGUP_SECONDS : Nat := 30
def SILENCE_MONITOR_INTERVAL : Nat := 5

/-- Observable state of one `LiveKitParticipantHandler` as seen by
`_monitor_user_silence`, plus counters for the farewell sends and
`disconnect()` calls the monitor performs. -/
structure MonitorState where
  time : Nat
  welcomeMessagePlayed : Bool
  lastUserActivityTime : Option Nat
  disconnectedEventSet : Bool
  farewellsSent : Nat
  disconnectCalls : Nat
  deriving DecidableEq, Repr

/-- One iteration of the `while not self._is_disconnected_event.is_set()` loop
(lines 110–128): sleep `SILENCE_MONITOR_INTERVAL`; if the welcome message has
been played and `last_user_activity_time` is truthy (a non-None, non-zero
timestamp) and more than `USER_SILENCE_HANGUP_SECONDS` have elapsed since it,
publish the farewell, sleep 2 s, call `disconnect()` (which sets the
disconnected event) and break.  Once the event is set the loop body never runs
again. -/
def monitorStep (s : MonitorState) : MonitorState :=
  if s.disconnectedEventSet then s
  else
    let t := s.time + SILENCE_MONITOR_INTERVAL
    match s.lastUserActivityTime with
    | some a =>
      if s.welcomeMessagePlayed && a != 0 then
        if USER_SILENCE_HANGUP_SECONDS + a < t then
          { s with time := t + 2
                   farewellsSent := s.farewellsSent + 1
                   disconnectCalls := s.disconnectCalls + 1
                   disconnectedEventSet := true }
        else { s with time := t }
      else { s with time := t }
    | none => { s with time := t }

/-- `n` polling iterations of the silence monitor. -/
def monitorRun (s : MonitorState) : Nat → MonitorState
  | 0 => s
  | n + 1 => monitorStep (monitorRun s n)

/-- A freshly started monitor (started by `connect`, which resets
`welcome_message_played`/`last_user_activity_time`; the event loop later sets
them when the join completes). -/
def initialMonitorState (t0 : Nat) (welcome : Bool) (lastActivity : Option Nat) :
    MonitorState :=
  { time := t0
    welcomeMessagePlayed := welcome
    lastUserActivityTime := lastActivity
    disconnectedEventSet := false
    farewellsSent := 0
    disconnectCalls := 0 }

/-! # Helper lemmas -/

/-- What the src dispatcher answers when every backend operation raises:
validation errors for invalid arguments, the generic internal error whenever a
backend operation is actually reached.  (Closed form; independent of the
exception message.) -/
def throwingResultSrc (toolName : String) (toolArgs : Args) : Payload :=
  if toolName == "get_contrat_details" then
    if truthy (toolArgs.get "numero_contrat") then genericToolError
    else [("error", .str "numero_contrat manquant.")]
  else if toolName == "open_claim" then
    if truthy (toolArgs.get "numero_contrat") && truthy (toolArgs.get "type_sinistre")
        && truthy (toolArgs.get "description_sinistre") then genericToolError
    else [("error", .str "Paramètres pour sinistre manquants.")]
  else [("error", .str ("Tool '" ++ toolName ++ "' execution failed."))]

/-- Same closed form for the artex_agent dispatcher. -/
def throwingResultArtex (toolName : String) (toolArgs : Args) : Payload :=
  if toolName == "get_contrat_details" then
    if truthy (toolArgs.get "numero_contrat") then genericToolErrorArtex toolName
    else [("error", .str "Numéro de contrat manquant pour get_contrat_details.")]
  else if toolName == "open_claim" then
    if truthy (toolArgs.get "numero_contrat") && truthy (toolArgs.get "type_sinistre")
        && truthy (toolArgs.get "description_sinistre") then genericToolErrorArtex toolName
    else [("error", .str ("Informations manquantes (numéro de contrat, type, "
        ++ "description) pour ouvrir le sinistre."))]
  else
    [("error", .str ("Tool '" ++ toolName
        ++ "' execution failed or not implemented in AgentService."))]

lemma executeFunctionCall_throwing (toolName : String) (toolArgs : Args) (db : DB)
    (m : String) :
    executeFunctionCall (envThrow m) toolName toolArgs db
      = (throwingResultSrc toolName toolArgs, db) := by
  simp only [executeFunctionCall, envThrow, throwingBackend, throwingResultSrc]
  split_ifs <;> rfl

lemma executeFunctionCallArtex_throwing (toolName : String) (toolArgs : Args) (db : DB)
    (m : String) :
    executeFunctionCallArtex (envThrow m) toolName toolArgs db
      = (throwingResultArtex toolName toolArgs, db) := by
  simp only [executeFunctionCallArtex, envThrow, throwingBackend, throwingResultArtex,
    Bool.not_true, Bool.false_eq_true, if_false]
  split_ifs <;> rfl

/-! # Claim theorems -/

/-- **C1** (code_bug).  The claim says a well-formed `open_claim` call on an
existing contract with a primary policyholder returns a success payload with a
fresh claim reference and persists a new claim row.  Evaluating both copies of
the dispatcher on exactly such an input (`NC123` exists, policyholder 7, all
required arguments present, no incident date): the returned payload is the
*initial* generic error dictionary and the database is unchanged — no claim
row is ever written, because the guard `if "error" not in response:` can never
pass (the initial `response` already carries the `"error"` key). -/
theorem open_claim_never_persists :
    executeFunctionCall realEnv "open_claim" openClaimArgs dbNC123
      = ([("error", .str "Tool 'open_claim' execution failed.")], dbNC123)
    ∧ executeFunctionCallArtex realEnv "open_claim" openClaimArgs dbNC123
      = ([("error", .str "Tool 'open_claim' execution failed or not implemented in AgentService.")],
         dbNC123)
    ∧ (executeFunctionCall realEnv "open_claim" openClaimArgs dbNC123).2.sinistres = [] :=
  ⟨rfl, rfl, rfl⟩

/-- **C2** (confirmed).  The dispatcher is a total function returning exactly
one payload (so it never raises, by construction of the embedding), and under
a backend whose every operation raises: the database is left as it was
(rollback), the result is independent of the exception message (no internal
exception detail reaches the payload), and whenever validation passes and a
backend call is actually made the payload is the fixed generic error message.
Both copies are covered. -/
theorem execute_function_call_exception_safety (toolName : String) (toolArgs : Args)
    (db : DB) (m : String) :
    (executeFunctionCall (envThrow m) toolName toolArgs db).2 = db
    ∧ executeFunctionCall (envThrow m) toolName toolArgs db
        = executeFunctionCall (envThrow "") toolName toolArgs db
    ∧ (executeFunctionCallArtex (envThrow m) toolName toolArgs db).2 = db
    ∧ executeFunctionCallArtex (envThrow m) toolName toolArgs db
        = executeFunctionCallArtex (envThrow "") toolName toolArgs db
    ∧ (toolName = "get_contrat_details" → truthy (toolArgs.get "numero_contrat") = true →
        (executeFunctionCall (envThrow m) toolName toolArgs db).1 = genericToolError) := by
  refine ⟨?_, ?_, ?_, ?_, ?_⟩
  · rw [executeFunctionCall_throwing]
  · rw [executeFunctionCall_throwing, executeFunctionCall_throwing]
  · rw [executeFunctionCallArtex_throwing]
  · rw [executeFunctionCallArtex_throwing, executeFunctionCallArtex_throwing]
  · intro hn ht
    subst hn
    rw [executeFunctionCall_throwing]
    simp [throwingResultSrc, ht]

/-- Witness for **C2**: the hypotheses of the last conjunct are satisfiable —
`get_contrat_details` with a non-empty contract number, under a backend that
raises `"db down"`, yields exactly the generic error payload with the database
untouched. -/
theorem execute_function_call_exception_safety_witness :
    truthy (Args.get [("numero_contrat", "NC123")] "numero_contrat") = true
    ∧ (executeFunctionCall (envThrow "db down") "get_contrat_details"
        [("numero_contrat", "NC123")] dbNC123).1 = genericToolError :=
  ⟨by decide,
   (execute_function_call_exception_safety "get_contrat_details"
      [("numero_contrat", "NC123")] dbNC123 "db down").2.2.2.2 rfl (by decide)⟩


lemma appendModelIfNeeded_nonmodel (l : List Turn) (t : Turn)
    (h : (t.role == "model") = false) :
    appendModelIfNeeded (l ++ [t]) = l ++ [t, modelTextTurn defaultErrorText] := by
  simp [appendModelIfNeeded, List.getLast?_concat, h]

lemma artexTextAfterTool_ne_empty (r : GemResponse) : artexTextAfterTool r ≠ "" := by
  unfold artexTextAfterTool
  rcases hp : hasParts r with _ | _
  · simp only [hp, Bool.false_eq_true, if_false]
    decide
  · simp only [hp, eq_self_iff_true, if_true]
    rcases he : (responseText r == "") with _ | _
    · simp only [he, Bool.false_eq_true, if_false]
      exact ne_of_beq_false he
    · simp only [he, eq_self_iff_true, if_true]
      rcases htc : responseToolCall r with _ | ⟨n, a⟩
      · simp only [htc]
        decide
      · simp only [htc]
        intro h
        have hlen := congrArg String.length h
        simp [String.length_append] at hlen
        exact absurd hlen.1.1 (by decide)

/-- Branch analysis of the artex_agent `get_reply`: the pre-trim history is the
incoming history plus a block of 2 or 4 turns in which every function-call
turn is immediately followed by its function-response turn; the stored history
is the trimmed pre-trim history; at most two gateway calls are made; and the
answer is always a non-empty `.ok` text. -/
lemma getReplyArtex_shape (gw : Gateway) (env : Env) (db : DB) (hist : List Turn)
    (msg : String) :
    ∃ (block : List Turn) (t : String),
      (getReplyArtex gw env db hist msg).pretrim = hist ++ block
      ∧ noOrphanRequest block = true
      ∧ (getReplyArtex gw env db hist msg).stored
          = trimArtex (getReplyArtex gw env db hist msg).pretrim
      ∧ (getReplyArtex gw env db hist msg).gatewayCalls ≤ 2
      ∧ (getReplyArtex gw env db hist msg).answer = .ok t
      ∧ t ≠ "" := by
  rcases h1 : gw (hist ++ [userTurn msg]) with e | resp
  · refine ⟨[userTurn msg, modelTextTurn defaultErrorText], defaultErrorText,
      ?_, rfl, ?_, ?_, ?_, by decide⟩
    · simp only [getReplyArtex, h1]
      rw [appendModelIfNeeded_nonmodel hist (userTurn msg) rfl]
    · simp only [getReplyArtex, h1]
    · simp only [getReplyArtex, h1]
      decide
    · simp only [getReplyArtex, h1]
  · rcases hp : hasParts resp with _ | _
    · refine ⟨[userTurn msg, modelTextTurn "[Erreur de communication avec l'IA.]"],
        "[Erreur de communication avec l'IA.]", ?_, rfl, ?_, ?_, ?_, by decide⟩
      · simp only [getReplyArtex, h1, hp, Bool.false_eq_true, if_false]
        simp
      · simp only [getReplyArtex, h1, hp, Bool.false_eq_true, if_false]
      · simp only [getReplyArtex, h1, hp, Bool.false_eq_true, if_false]
        decide
      · simp only [getReplyArtex, h1, hp, Bool.false_eq_true, if_false]
    · rcases htc : responseToolCall resp with _ | ⟨name, fcArgs⟩
      · refine ⟨[userTurn msg, modelTextTurn (if responseText resp == ""
            then "[L'agent n'a pas fourni de réponse textuelle.]" else responseText resp)],
          (if responseText resp == "" then "[L'agent n'a pas fourni de réponse textuelle.]"
            else responseText resp), ?_, rfl, ?_, ?_, ?_, ?_⟩
        · simp only [getReplyArtex, h1, hp, eq_self_iff_true, if_true, htc]
          simp
        · simp only [getReplyArtex, h1, hp, eq_self_iff_true, if_true, htc]
        · simp only [getReplyArtex, h1, hp, eq_self_iff_true, if_true, htc]
          decide
        · simp only [getReplyArtex, h1, hp, eq_self_iff_true, if_true, htc]
        · split_ifs with he
          · decide
          · exact ne_of_beq_false (by simpa using he)
      · rcases h2 : gw (hist ++ [userTurn msg] ++ [modelFunctionCallTurn name fcArgs]
            ++ [functionResponseTurn name (executeFunctionCallArtex env name fcArgs db).1])
          with e2 | resp2
        · refine ⟨[userTurn msg, modelFunctionCallTurn name fcArgs,
              functionResponseTurn name (executeFunctionCallArtex env name fcArgs db).1,
              modelTextTurn defaultErrorText], defaultErrorText, ?_, rfl, ?_, ?_, ?_, by decide⟩
          · simp only [getReplyArtex, h1, hp, eq_self_iff_true, if_true, htc, h2]
            rw [appendModelIfNeeded_nonmodel
              (hist ++ [userTurn msg] ++ [modelFunctionCallTurn name fcArgs])
              (functionResponseTurn name (executeFunctionCallArtex env name fcArgs db).1) rfl]
            simp
          · simp only [getReplyArtex, h1, hp, eq_self_iff_true, if_true, htc, h2]
          · simp only [getReplyArtex, h1, hp, eq_self_iff_true, if_true, htc, h2]
            decide
          · simp only [getReplyArtex, h1, hp, eq_self_iff_true, if_true, htc, h2]
        · refine ⟨[userTurn msg, modelFunctionCallTurn name fcArgs,
              functionResponseTurn name (executeFunctionCallArtex env name fcArgs db).1,
              modelTextTurn (artexTextAfterTool resp2)], artexTextAfterTool resp2,
            ?_, rfl, ?_, ?_, ?_, artexTextAfterTool_ne_empty resp2⟩
          · simp only [getReplyArtex, h1, hp, eq_self_iff_true, if_true, htc, h2]
            simp
          · simp only [getReplyArtex, h1, hp, eq_self_iff_true, if_true, htc, h2]
          · simp only [getReplyArtex, h1, hp, eq_self_iff_true, if_true, htc, h2]
            decide
          · simp only [getReplyArtex, h1, hp, eq_self_iff_true, if_true, htc, h2]

lemma getReplySrc_ok_shape (gw : Gateway) (env : Env) (db : DB) (hist : List Turn)
    (msg : String) (t : String)
    (h : (getReplySrc gw env db hist msg).answer = .ok t) :
    (getReplySrc gw env db hist msg).stored
      = trimSrc (getReplySrc gw env db hist msg).pretrim := by
  rcases h1 : gw (hist ++ [userTurn msg]) with e | resp
  · simp only [getReplySrc, h1] at h
    cases h
  · rcases htc : responseToolCall resp with _ | ⟨name, fcArgs⟩
    · simp only [getReplySrc, h1, htc]
    · simp only [getReplySrc, h1, htc] at h
      cases h

lemma trimSrc_length_le (h : List Turn) :
    (trimSrc h).length ≤ MAX_HISTORY_TURNS_API * 4 := by
  unfold trimSrc MAX_HISTORY_TURNS_API
  split_ifs with hc
  · simp only [List.length_drop]
    omega
  · omega

lemma trimSrc_suffix (h : List Turn) : trimSrc h <:+ h := by
  unfold trimSrc
  split_ifs
  · exact List.drop_suffix _ _
  · exact List.suffix_refl _

lemma trimArtex_length_le (h : List Turn) :
    (trimArtex h).length ≤ MAX_HISTORY_TURNS_API * 2 := by
  unfold trimArtex MAX_HISTORY_TURNS_API
  split_ifs with hc
  · simp only [List.length_drop]
    omega
  · omega

lemma trimArtex_suffix (h : List Turn) : trimArtex h <:+ h := by
  unfold trimArtex
  split_ifs
  · exact List.drop_suffix _ _
  · exact List.suffix_refl _

lemma noOrphanRequest_tail (t : Turn) (l : List Turn)
    (h : noOrphanRequest (t :: l) = true) : noOrphanRequest l = true := by
  cases l with
  | nil => rfl
  | cons u rest =>
    simp only [noOrphanRequest, Bool.and_eq_true] at h
    exact h.2

lemma noOrphanRequest_drop (l : List Turn) (k : Nat)
    (h : noOrphanRequest l = true) : noOrphanRequest (l.drop k) = true := by
  induction k generalizing l with
  | zero => simpa using h
  | succ k ih =>
    cases l with
    | nil => simpa using h
    | cons t rest => exact ih rest (noOrphanRequest_tail t rest h)

lemma noOrphanRequest_append (l₁ l₂ : List Turn)
    (h₁ : noOrphanRequest l₁ = true) (h₂ : noOrphanRequest l₂ = true) :
    noOrphanRequest (l₁ ++ l₂) = true := by
  induction l₁ with
  | nil => simpa using h₂
  | cons t rest ih =>
    cases rest with
    | nil =>
      cases l₂ with
      | nil => simpa using h₁
      | cons u l₂rest =>
        simp only [List.cons_append, List.nil_append, noOrphanRequest, Bool.and_eq_true]
        refine ⟨?_, h₂⟩
        simp only [noOrphanRequest] at h₁
        simp [h₁]
    | cons u rest2 =>
      simp only [noOrphanRequest, Bool.and_eq_true] at h₁
      have := ih h₁.2
      simp only [List.cons_append] at this ⊢
      simp only [noOrphanRequest, Bool.and_eq_true]
      exact ⟨h₁.1, this⟩

lemma getReplyArtex_preserves_pairs (gw : Gateway) (env : Env) (db : DB)
    (hist : List Turn) (msg : String)
    (h : noOrphanRequest hist = true) :
    noOrphanRequest (getReplyArtex gw env db hist msg).stored = true := by
  obtain ⟨block, t, hpre, hblock, hstored, _, _, _⟩ :=
    getReplyArtex_shape gw env db hist msg
  rw [hstored, hpre]
  have hh := noOrphanRequest_append hist block h hblock
  unfold trimArtex
  split_ifs
  · exact noOrphanRequest_drop _ _ hh
  · exact hh

/-- **C3** (code_bug).  Per user message both copies of `get_reply` make at
most two LLM Gateway calls (at most one tool round trip).  But on a gateway
that returns a tool call on every invocation, the src copy raises `NameError`
(it evaluates `Part.from_function_response` while `Part` is never imported in
`src/src/agent_service.py`) instead of returning the placeholder the claim
describes; the artex_agent copy terminates after exactly two gateway calls
with the placeholder answer. -/
theorem at_most_one_tool_round_trip_eval :
    (∀ (gw : Gateway) (env : Env) (db : DB) (hist : List Turn) (msg : String),
        (getReplyArtex gw env db hist msg).gatewayCalls ≤ 2
        ∧ (getReplySrc gw env db hist msg).gatewayCalls ≤ 2)
    ∧ (getReplySrc gwAlwaysFc realEnv dbNC123 [] "Bonjour").answer
        = .error "NameError: name 'Part' is not defined"
    ∧ (getReplyArtex gwAlwaysFc realEnv dbNC123 [] "Bonjour").answer
        = .ok "[AGENT_ACTION: Outil 'get_contrat_details' suggéré, traitement en attente.]"
    ∧ (getReplyArtex gwAlwaysFc realEnv dbNC123 [] "Bonjour").gatewayCalls = 2 := by
  refine ⟨?_, rfl, rfl, rfl⟩
  intro gw env db hist msg
  constructor
  · obtain ⟨b, t, _, _, _, hc, _, _⟩ := getReplyArtex_shape gw env db hist msg
    exact hc
  · rcases h1 : gw (hist ++ [userTurn msg]) with e | resp
    · simp only [getReplySrc, h1]
      decide
    · rcases htc : responseToolCall resp with _ | ⟨n, a⟩
      · simp only [getReplySrc, h1, htc]
        decide
      · simp only [getReplySrc, h1, htc]
        decide

set_option maxRecDepth 8000 in
/-- **C4** (counterexample).  After 21 consecutive plain-text turns on one
conversation, the src copy stores 40 raw turns containing 20 user/model turn
pairs — more than the configured maximum of `MAX_HISTORY_TURNS_API = 10`
pairs, contradicting the claim's "at most the configured maximum of
user/model turn pairs". -/
theorem history_bound_counterexample :
    ((runSrcRounds gwText realEnv dbNC123 "Encore une question" 21).1.filter
        (fun t => t.role == "user")).length = 20
    ∧ MAX_HISTORY_TURNS_API < 20 := by
  constructor
  · decide
  · decide

/-- **C4** (amended).  After each completed `get_reply`, the stored history is
a suffix of the pre-trim history; the src copy bounds it by 40 raw turns
(which can be up to 20 user/model pairs), and the artex_agent copy bounds it
by 20 raw turns. -/
theorem history_bound_amended (gw : Gateway) (env : Env) (db : DB) (hist : List Turn)
    (msg : String) (t : String)
    (h : (getReplySrc gw env db hist msg).answer = .ok t) :
    (getReplySrc gw env db hist msg).stored.length ≤ MAX_HISTORY_TURNS_API * 4
    ∧ (getReplySrc gw env db hist msg).stored <:+ (getReplySrc gw env db hist msg).pretrim
    ∧ ∀ (gw2 : Gateway) (env2 : Env) (db2 : DB) (hist2 : List Turn) (msg2 : String),
        (getReplyArtex gw2 env2 db2 hist2 msg2).stored.length ≤ MAX_HISTORY_TURNS_API * 2
        ∧ (getReplyArtex gw2 env2 db2 hist2 msg2).stored
            <:+ (getReplyArtex gw2 env2 db2 hist2 msg2).pretrim := by
  have hs := getReplySrc_ok_shape gw env db hist msg t h
  refine ⟨?_, ?_, ?_⟩
  · rw [hs]
    exact trimSrc_length_le _
  · rw [hs]
    exact trimSrc_suffix _
  · intro gw2 env2 db2 hist2 msg2
    obtain ⟨b, t2, _, _, hst, _, _, _⟩ := getReplyArtex_shape gw2 env2 db2 hist2 msg2
    rw [hst]
    exact ⟨trimArtex_length_le _, trimArtex_suffix _⟩

theorem history_bound_amended_witness :
    (getReplySrc gwText realEnv dbNC123 [] "Bonjour").answer
      = .ok "Bonjour, comment puis-je aider?"
    ∧ (getReplySrc gwText realEnv dbNC123 [] "Bonjour").stored.length
        ≤ MAX_HISTORY_TURNS_API * 4 :=
  ⟨rfl, (history_bound_amended gwText realEnv dbNC123 [] "Bonjour"
      "Bonjour, comment puis-je aider?" rfl).1⟩

/-- **C5** (counterexample).  Ten artex_agent `get_reply` rounds in which the
very first round performs a tool round trip: the tenth round trims the stored
history to 20 raw turns, dropping the tool_request (model function-call) turn
while retaining its matching tool_result (function-role) turn — the stored
history then has an orphan tool_result, so trimming does split a
tool_request/tool_result pair.  After nine rounds no orphan exists yet. -/
theorem trim_splits_tool_pair_counterexample :
    hasOrphanResult (runArtexRounds gwFirstCallFc realEnv dbNC123 "Ma question" 10).1 = true
    ∧ hasOrphanResult (runArtexRounds gwFirstCallFc realEnv dbNC123 "Ma question" 9).1 = false :=
  ⟨rfl, rfl⟩

/-- **C5** (amended).  Trimming removes only the oldest turns (the stored
history is a suffix of the pre-trim history), and a retained tool_request is
always immediately followed by its tool_result (that half of the pairing is
never split); the trim may however orphan a tool_result, as the
counterexample shows. -/
theorem trim_preserves_requests_amended (gw : Gateway) (env : Env) (db : DB)
    (hist : List Turn) (msg : String) (h : noOrphanRequest hist = true) :
    noOrphanRequest (getReplyArtex gw env db hist msg).stored = true
    ∧ (getReplyArtex gw env db hist msg).stored
        <:+ (getReplyArtex gw env db hist msg).pretrim := by
  refine ⟨getReplyArtex_preserves_pairs gw env db hist msg h, ?_⟩
  obtain ⟨b, t2, _, _, hst, _, _, _⟩ := getReplyArtex_shape gw env db hist msg
  rw [hst]
  exact trimArtex_suffix _

theorem trim_preserves_requests_amended_witness :
    noOrphanRequest ([] : List Turn) = true
    ∧ noOrphanRequest (getReplyArtex gwFirstCallFc realEnv dbNC123 [] "Bonjour").stored = true :=
  ⟨rfl, (trim_preserves_requests_amended gwFirstCallFc realEnv dbNC123 [] "Bonjour" rfl).1⟩

/-- **C6** (counterexample).  The src copy has no `try/except` around its
gateway calls: when the gateway raises (as `generate_text_response` does after
exhausting its retries), `get_reply` propagates the exception to the caller
instead of returning text. -/
theorem get_reply_raises_counterexample :
    (getReplySrc (gwRaise "Failed to get response from Gemini after 3 retries.")
        realEnv dbNC123 [] "Bonjour").answer
      = .error "Failed to get response from Gemini after 3 retries." := rfl

/-- **C6** (amended).  The artex_agent copy of `get_reply` never raises and
always returns some non-empty text for any gateway and backend behaviour, and
on a raising gateway the outcome is independent of the exception message (the
fixed generic apology — no raw internal error reaches the user); in the src
copy a gateway exception propagates (see the counterexample). -/
theorem get_reply_artex_always_answers :
    (∀ (gw : Gateway) (env : Env) (db : DB) (hist : List Turn) (msg : String),
      ∃ t, (getReplyArtex gw env db hist msg).answer = .ok t ∧ t ≠ "")
    ∧ (∀ (e1 e2 : String) (env : Env) (db : DB) (hist : List Turn) (msg : String),
        getReplyArtex (gwRaise e1) env db hist msg
          = getReplyArtex (gwRaise e2) env db hist msg) := by
  constructor
  · intro gw env db hist msg
    obtain ⟨b, t, _, _, _, _, ha, hn⟩ := getReplyArtex_shape gw env db hist msg
    exact ⟨t, ha, hn⟩
  · intro e1 e2 env db hist msg
    rfl

lemma generateLoop_succ (api : ApiBehavior) (rem c b : Nat) (s : List Nat) :
    generateLoop api (rem + 1) c b s
      = match api c with
        | .ok r => { response := .ok r, sleeps := s.reverse, attempts := c + 1 }
        | .error _ =>
          generateLoop api rem (c + 1) (min MAX_BACKOFF_SECONDS (b * 2)) (b :: s) := rfl

lemma generateTextResponse_eval_ok0 (api : ApiBehavior) (r : GemResponse)
    (h0 : api 0 = .ok r) :
    generateTextResponse api = ⟨.ok r, [], 1⟩ := by
  simp only [generateTextResponse, MAX_RETRIES, INITIAL_BACKOFF_SECONDS,
    generateLoop_succ, h0]
  rfl

lemma generateTextResponse_eval_ok1 (api : ApiBehavior) (e0 : String) (r : GemResponse)
    (h0 : api 0 = .error e0) (h1 : api 1 = .ok r) :
    generateTextResponse api = ⟨.ok r, [1], 2⟩ := by
  simp only [generateTextResponse, MAX_RETRIES, INITIAL_BACKOFF_SECONDS,
    generateLoop_succ, h0, h1]
  rfl

lemma generateTextResponse_eval_ok2 (api : ApiBehavior) (e0 e1 : String) (r : GemResponse)
    (h0 : api 0 = .error e0) (h1 : api 1 = .error e1) (h2 : api 2 = .ok r) :
    generateTextResponse api = ⟨.ok r, [1, 2], 3⟩ := by
  simp only [generateTextResponse, MAX_RETRIES, INITIAL_BACKOFF_SECONDS,
    generateLoop_succ, h0, h1, h2]
  rfl

lemma generateTextResponse_eval_fail (api : ApiBehavior) (e0 e1 e2 : String)
    (h0 : api 0 = .error e0) (h1 : api 1 = .error e1) (h2 : api 2 = .error e2) :
    generateTextResponse api
      = ⟨.error "Failed to get response from Gemini after 3 retries.", [1, 2, 4], 3⟩ := by
  simp only [generateTextResponse, MAX_RETRIES, INITIAL_BACKOFF_SECONDS,
    generateLoop_succ, h0, h1, h2]
  rfl

/-- **C7** (confirmed).  `generate_text_response` makes at most
`MAX_RETRIES = 3` attempts; the sleeps performed are a prefix of `[1, 2, 4]`
(doubling backoff starting at `INITIAL_BACKOFF_SECONDS = 1`, each capped at
`MAX_BACKOFF_SECONDS = 16`); and when every attempt fails it raises the
terminal error after exactly 3 attempts instead of retrying further. -/
theorem gemini_retry_policy (api : ApiBehavior) :
    (generateTextResponse api).attempts ≤ MAX_RETRIES
    ∧ (generateTextResponse api).sleeps
        = [1, 2, 4].take (generateTextResponse api).sleeps.length
    ∧ (∀ s ∈ (generateTextResponse api).sleeps, s ≤ MAX_BACKOFF_SECONDS)
    ∧ (((api 0).isOk = false ∧ (api 1).isOk = false ∧ (api 2).isOk = false) →
        (generateTextResponse api).response
          = .error "Failed to get response from Gemini after 3 retries."
        ∧ (generateTextResponse api).sleeps = [1, 2, 4]
        ∧ (generateTextResponse api).attempts = MAX_RETRIES) := by
  rcases h0 : api 0 with e0 | r0
  · rcases h1 : api 1 with e1 | r1
    · rcases h2 : api 2 with e2 | r2
      · rw [generateTextResponse_eval_fail api e0 e1 e2 h0 h1 h2]
        refine ⟨?_, ?_, ?_, fun _ => ⟨rfl, rfl, rfl⟩⟩
        · show (3 : Nat) ≤ MAX_RETRIES
          decide
        · show ([1, 2, 4] : List Nat) = [1, 2, 4].take ([1, 2, 4] : List Nat).length
          decide
        · show ∀ s ∈ ([1, 2, 4] : List Nat), s ≤ MAX_BACKOFF_SECONDS
          decide
      · rw [generateTextResponse_eval_ok2 api e0 e1 r2 h0 h1 h2]
        refine ⟨?_, ?_, ?_, ?_⟩
        · show (3 : Nat) ≤ MAX_RETRIES
          decide
        · show ([1, 2] : List Nat) = [1, 2, 4].take ([1, 2] : List Nat).length
          decide
        · show ∀ s ∈ ([1, 2] : List Nat), s ≤ MAX_BACKOFF_SECONDS
          decide
        · intro hk
          have hcontra := hk.2.2
          simp [Except.isOk, Except.toBool] at hcontra
    · rw [generateTextResponse_eval_ok1 api e0 r1 h0 h1]
      refine ⟨?_, ?_, ?_, ?_⟩
      · show (2 : Nat) ≤ MAX_RETRIES
        decide
      · show ([1] : List Nat) = [1, 2, 4].take ([1] : List Nat).length
        decide
      · show ∀ s ∈ ([1] : List Nat), s ≤ MAX_BACKOFF_SECONDS
        decide
      · intro hk
        have hcontra := hk.2.1
        simp [Except.isOk, Except.toBool] at hcontra
  · rw [generateTextResponse_eval_ok0 api r0 h0]
    refine ⟨?_, ?_, ?_, ?_⟩
    · show (1 : Nat) ≤ MAX_RETRIES
      decide
    · show ([] : List Nat) = [1, 2, 4].take ([] : List Nat).length
      decide
    · show ∀ s ∈ ([] : List Nat), s ≤ MAX_BACKOFF_SECONDS
      decide
    · intro hk
      have hcontra := hk.1
      simp [Except.isOk, Except.toBool] at hcontra

theorem gemini_retry_policy_witness :
    ((fun _ => (.error "ECONNRESET" : Except String GemResponse)) 0).isOk = false
    ∧ (generateTextResponse (fun _ => .error "ECONNRESET")).sleeps = [1, 2, 4]
    ∧ (generateTextResponse (fun _ => .error "ECONNRESET")).attempts = MAX_RETRIES :=
  ⟨rfl,
   ((gemini_retry_policy (fun _ => .error "ECONNRESET")).2.2.2 ⟨rfl, rfl, rfl⟩).2.1,
   ((gemini_retry_policy (fun _ => .error "ECONNRESET")).2.2.2 ⟨rfl, rfl, rfl⟩).2.2⟩

/-- **C8** (counterexample).  The claim says markers match as literal prefixes
of the *trimmed* final model text.  On the text `" [HANDOFF]"` (leading
space), the code's check (`startswith` on the raw reply) yields `Answer`,
while the claimed extraction (prefix of the trimmed text) yields `Handoff`
with the default message — the two disagree. -/
theorem directive_trim_counterexample :
    extractDirective " [HANDOFF]" = .answer " [HANDOFF]"
    ∧ extractDirectiveClaimed " [HANDOFF]" = .handoff DEFAULT_HANDOFF_MESSAGE
    ∧ extractDirective " [HANDOFF]" ≠ extractDirectiveClaimed " [HANDOFF]" := by
  have h1 : extractDirective " [HANDOFF]" = .answer " [HANDOFF]" := rfl
  have h2 : extractDirectiveClaimed " [HANDOFF]" = .handoff DEFAULT_HANDOFF_MESSAGE := rfl
  refine ⟨h1, h2, ?_⟩
  intro h
  rw [h1, h2] at h
  exact Directive.noConfusion h

/-- **C8** (amended).  Markers are checked in fixed priority order as literal
prefixes of the raw (untrimmed) final model text: a handoff-prefixed text
always yields `Handoff` with a non-empty message (the text with every
occurrence of the marker removed and stripped, or the default message when
empty), even when the clarify marker appears later in the text; only
otherwise does a clarify-prefixed text yield `ClarifyRequest`; all other text
yields `Answer` — the result is always exactly one directive. -/
theorem directive_priority_amended (t : String) :
    (pyStartsWith t HANDOFF_MARKER = true →
      ∃ m, extractDirective t = .handoff m ∧ m ≠ "")
    ∧ (pyStartsWith t HANDOFF_MARKER = false → pyStartsWith t CLARIFY_MARKER = true →
      extractDirective t = .clarifyRequest (pyStrip (pyRemoveAll t CLARIFY_MARKER)))
    ∧ (pyStartsWith t HANDOFF_MARKER = false → pyStartsWith t CLARIFY_MARKER = false →
      extractDirective t = .answer t) := by
  refine ⟨?_, ?_, ?_⟩
  · intro h
    rcases he : (pyStrip (pyRemoveAll t HANDOFF_MARKER) == "") with _ | _
    · refine ⟨pyStrip (pyRemoveAll t HANDOFF_MARKER), ?_, ne_of_beq_false he⟩
      simp only [extractDirective, h, eq_self_iff_true, if_true, he,
        Bool.false_eq_true, if_false]
    · refine ⟨DEFAULT_HANDOFF_MESSAGE, ?_, by decide⟩
      simp only [extractDirective, h, eq_self_iff_true, if_true, he]
  · intro hh hc
    simp only [extractDirective, hh, Bool.false_eq_true, if_false, hc,
      eq_self_iff_true, if_true]
  · intro hh hc
    simp only [extractDirective, hh, hc, Bool.false_eq_true, if_false]

theorem directive_priority_amended_witness :
    (pyStartsWith "[HANDOFF][CLARIFY] aidez-moi" HANDOFF_MARKER = true)
    ∧ ∃ m, extractDirective "[HANDOFF][CLARIFY] aidez-moi" = .handoff m ∧ m ≠ "" :=
  ⟨by decide, (directive_priority_amended "[HANDOFF][CLARIFY] aidez-moi").1 (by decide)⟩

/-- State evolution of the silence monitor after the welcome message has been
played and a (truthy) last-activity timestamp recorded but never updated
again: either no poll has triggered yet (counters zero, clock advanced, and —
when at least one poll ran — the idle bound not yet exceeded), or the timeout
fired and exactly one farewell and one disconnect were performed, after which
the loop is finished. -/
lemma monitorRun_cases (t0 a : Nat) (ha : a ≠ 0) (n : Nat) :
    (monitorRun (initialMonitorState t0 true (some a)) n
        = { initialMonitorState t0 true (some a) with
            time := t0 + SILENCE_MONITOR_INTERVAL * n }
      ∧ (1 ≤ n → t0 + SILENCE_MONITOR_INTERVAL * n ≤ USER_SILENCE_HANGUP_SECONDS + a))
    ∨ (∃ tf, monitorRun (initialMonitorState t0 true (some a)) n
        = { time := tf, welcomeMessagePlayed := true, lastUserActivityTime := some a,
            disconnectedEventSet := true, farewellsSent := 1, disconnectCalls := 1 }) := by
  have hane : (a != 0) = true := by simpa using ha
  induction n with
  | zero =>
    left
    constructor
    · simp [initialMonitorState, monitorRun]
    · intro h
      omega
  | succ n ih =>
    rcases ih with ⟨heq, hb⟩ | ⟨tf, heq⟩
    · simp only [monitorRun, heq]
      unfold monitorStep
      simp only [initialMonitorState, Bool.false_eq_true, if_false, hane, Bool.and_self,
        eq_self_iff_true, if_true]
      split_ifs with htrig
      · right
        refine ⟨t0 + SILENCE_MONITOR_INTERVAL * n + SILENCE_MONITOR_INTERVAL + 2, ?_⟩
        rfl
      · left
        constructor
        · have : t0 + SILENCE_MONITOR_INTERVAL * n + SILENCE_MONITOR_INTERVAL
              = t0 + SILENCE_MONITOR_INTERVAL * (n + 1) := by
            unfold SILENCE_MONITOR_INTERVAL
            ring
          rw [this]
        · intro _
          unfold SILENCE_MONITOR_INTERVAL USER_SILENCE_HANGUP_SECONDS at htrig ⊢
          omega
    · right
      refine ⟨tf, ?_⟩
      simp only [monitorRun, heq]
      unfold monitorStep
      simp

/-- **C9** (confirmed).  For a session whose last-activity marker stops being
updated: the monitor never sends more than one farewell nor more than one
disconnect, farewells and disconnects come in lock-step, and once more than
`USER_SILENCE_HANGUP_SECONDS = 30` seconds have elapsed past the
last-activity time at some poll (polling every
`SILENCE_MONITOR_INTERVAL = 5` seconds), exactly one farewell has been sent
and exactly one disconnect performed. -/
theorem idle_timeout_fires_exactly_once (t0 a n : Nat) (ha : a ≠ 0) :
    (monitorRun (initialMonitorState t0 true (some a)) n).farewellsSent ≤ 1
    ∧ (monitorRun (initialMonitorState t0 true (some a)) n).disconnectCalls ≤ 1
    ∧ (monitorRun (initialMonitorState t0 true (some a)) n).farewellsSent
        = (monitorRun (initialMonitorState t0 true (some a)) n).disconnectCalls
    ∧ (1 ≤ n → USER_SILENCE_HANGUP_SECONDS + a < t0 + SILENCE_MONITOR_INTERVAL * n →
        (monitorRun (initialMonitorState t0 true (some a)) n).farewellsSent = 1
        ∧ (monitorRun (initialMonitorState t0 true (some a)) n).disconnectCalls = 1) := by
  rcases monitorRun_cases t0 a ha n with ⟨heq, hb⟩ | ⟨tf, heq⟩ <;> rw [heq]
  · refine ⟨?_, ?_, rfl, ?_⟩
    · show (0 : Nat) ≤ 1
      decide
    · show (0 : Nat) ≤ 1
      decide
    · intro hn htrig
      exact absurd (hb hn) (by omega)
  · exact ⟨le_refl 1, le_refl 1, rfl, fun _ _ => ⟨rfl, rfl⟩⟩

theorem idle_timeout_fires_exactly_once_witness :
    (1 : Nat) ≠ 0
    ∧ (1 : Nat) ≤ 7
    ∧ USER_SILENCE_HANGUP_SECONDS + 1 < 0 + SILENCE_MONITOR_INTERVAL * 7
    ∧ (monitorRun (initialMonitorState 0 true (some 1)) 7).farewellsSent = 1
    ∧ (monitorRun (initialMonitorState 0 true (some 1)) 7).disconnectCalls = 1 :=
  ⟨by decide, by decide, by decide,
   ((idle_timeout_fires_exactly_once 0 1 7 (by decide)).2.2.2 (by decide) (by decide)).1,
   ((idle_timeout_fires_exactly_once 0 1 7 (by decide)).2.2.2 (by decide) (by decide)).2⟩

lemma monitorRun_no_join (t0 : Nat) (w : Bool) (la : Option Nat)
    (h : w = false ∨ la = none) (n : Nat) :
    monitorRun (initialMonitorState t0 w la) n
      = { initialMonitorState t0 w la with
          time := t0 + SILENCE_MONITOR_INTERVAL * n } := by
  induction n with
  | zero => simp [initialMonitorState, monitorRun]
  | succ n ih =>
    simp only [monitorRun, ih]
    unfold monitorStep
    have harith : t0 + SILENCE_MONITOR_INTERVAL * n + SILENCE_MONITOR_INTERVAL
        = t0 + SILENCE_MONITOR_INTERVAL * (n + 1) := by
      unfold SILENCE_MONITOR_INTERVAL
      ring
    rcases h with hw | hla
    · subst hw
      simp only [initialMonitorState, Bool.false_eq_true, if_false, Bool.false_and]
      rcases la with _ | a
      · rw [harith]
      · simp only [Bool.false_eq_true, if_false]
        rw [harith]
    · subst hla
      simp only [initialMonitorState, Bool.false_eq_true, if_false]
      rw [harith]

/-- **C10** (confirmed).  While the join never completes — the welcome message
was never played or no last-activity timestamp was ever recorded — the
monitor keeps polling forever without sending a farewell or disconnecting,
regardless of how much time elapses. -/
theorem monitor_idle_before_join (t0 : Nat) (w : Bool) (la : Option Nat) (n : Nat)
    (h : w = false ∨ la = none) :
    (monitorRun (initialMonitorState t0 w la) n).farewellsSent = 0
    ∧ (monitorRun (initialMonitorState t0 w la) n).disconnectCalls = 0
    ∧ (monitorRun (initialMonitorState t0 w la) n).disconnectedEventSet = false := by
  rw [monitorRun_no_join t0 w la h n]
  exact ⟨rfl, rfl, rfl⟩

theorem monitor_idle_before_join_witness :
    ((false = false ∨ (some 5 : Option Nat) = none))
    ∧ (monitorRun (initialMonitorState 0 false (some 5)) 20).farewellsSent = 0
    ∧ (monitorRun (initialMonitorState 0 false (some 5)) 20).disconnectedEventSet = false :=
  ⟨Or.inl rfl,
   (monitor_idle_before_join 0 false (some 5) 20 (Or.inl rfl)).1,
   (monitor_idle_before_join 0 false (some 5) 20 (Or.inl rfl)).2.2⟩

end ArtexAgent
